import Mathlib

/-!
Shallow embedding of `src/cpu_common/process_monitor.rs` from the
`fas-rs-perf` repository.

Modelling conventions:
* Rust `u64` arithmetic is modelled on `ℕ` with explicit wrapping modulo
  `2 ^ 64` where the source can overflow (release profile: `-` wraps).
* Wall-clock instants (`std::time::Instant`) are modelled as integer
  nanosecond timestamps (`Instant` has nanosecond resolution) supplied by
  the environment; each distinct `Instant::now()` call site inside one
  loop iteration gets its own timestamp field in `TickEnv`.
* Kernel state (`/proc` reads) is modelled as environment-supplied data:
  `get_thread_ids` results become `TickEnv.threads : Option (List Int)`
  (`none` = the `Err` case) and each `get_thread_cpu_time` call site
  becomes a per-phase reading function `Int → ℕ`.
* The `f64` division in `try_calculate` is modelled as exact arithmetic
  (truncated division of the integer nanosecond quantities); the IEEE-754
  special cases that the claims hinge on (division by `+0.0` and the
  saturating `as u64` cast) are modelled exactly, see `f64DivCast`.
* `HashMap<i32, UsageTracker>` is modelled as an association list
  `List (Int × UsageTracker)`; `entry(..).remove()` is `extract`.
-/

namespace PM

/-- The `u64` modulus: Rust `u64` arithmetic wraps modulo `2 ^ 64`. -/
def U64Mod : ℕ := 2 ^ 64

/-- Wrapping `u64` subtraction `a - b`, the release-profile semantics of
    `new_cputime - self.last_cputime` in `UsageTracker::try_calculate`. -/
def wrapSub (a b : ℕ) : ℕ := (a % U64Mod + U64Mod - b % U64Mod) % U64Mod

/-- Models `atoi::atoi::<u64>` on a byte slice: parse the leading run of
    ASCII digits; `none` when the slice does not start with a digit or the
    value overflows `u64`. -/
def atoiU64 (s : List Char) : Option ℕ :=
  let ds := s.takeWhile Char.isDigit
  if ds = [] then none
  else
    let v := ds.foldl (fun acc c => acc * 10 + (c.toNat - 48)) 0
    if v < U64Mod then some v else none

/-- Models `get_thread_cpu_time`.  The argument is the content of
    `/proc/<tid>/schedstat`: `none` when the read fails (the source
    substitutes an empty byte string via `unwrap_or_else(Vec::new)`).
    The first space-delimited field is parsed with `atoi`; a failed parse
    yields `0` via `unwrap_or(0)`. -/
def get_thread_cpu_time (content : Option (List Char)) : ℕ :=
  let stat_content := content.getD []
  let first_part := stat_content.takeWhile (fun c => c ≠ ' ')
  (atoiU64 first_part).getD 0

/-- Per-thread rate-estimator state (`struct UsageTracker`, which is `Copy`
    in the source). -/
structure UsageTracker where
  tid : Int
  last_cputime : ℕ
  read_timer : ℤ
  deriving DecidableEq

/-- Models `UsageTracker::new(tid)` with the environment supplying the value
    of the `get_thread_cpu_time(tid)` call and the `Instant::now()` instant. -/
def UsageTracker.new (tid : Int) (read : ℕ) (now : ℤ) : UsageTracker :=
  { tid := tid, last_cputime := read, read_timer := now }

/-- Models `(cputime_slice as f64 / elapsed_ticks) as u64`.
    IEEE-754 special cases, modelled exactly: a positive numerator over
    `+0.0` is `+inf`, and `+inf as u64` saturates to `u64::MAX`;
    `0.0 / 0.0` is NaN, and `NaN as u64` is `0`.  A finite nonnegative
    quotient truncates toward zero and saturates at `u64::MAX`; rounding of
    in-range `f64` arithmetic is idealised as exact rational arithmetic. -/
def f64DivCast (slice : ℕ) (elapsed : ℤ) : ℕ :=
  if elapsed ≤ 0 then if slice = 0 then 0 else U64Mod - 1
  else min (U64Mod - 1) (slice / elapsed.toNat)

/-- Models `UsageTracker::try_calculate`, which takes `self` by value
    (`mut self` on a `Copy` type).  This function returns both the locally updated copy
    (mirroring the assignments to `self.read_timer` and `self.last_cputime`)
    and the computed rate; the callers in the source discard the updated
    copy.  `new_cputime` is the environment's value for the
    `get_thread_cpu_time(self.tid)` call and `now` the `Instant::now()`
    instant; `elapsed_ticks` is `self.read_timer.elapsed()` in
    nanoseconds. -/
def tryCalculateRaw (self : UsageTracker) (new_cputime : ℕ) (now : ℤ) :
    UsageTracker × ℕ :=
  let elapsed_ticks : ℤ := now - self.read_timer
  let cputime_slice : ℕ := wrapSub new_cputime self.last_cputime
  ({ self with read_timer := now, last_cputime := new_cputime },
   f64DivCast cputime_slice elapsed_ticks)

/-- The value returned by `try_calculate` (the updated copy of `self` is
    dropped by every caller in the source). -/
def try_calculate (self : UsageTracker) (new_cputime : ℕ) (now : ℤ) : ℕ :=
  (tryCalculateRaw self new_cputime now).2

/-- Association-list lookup, modelling `HashMap` key lookup. -/
def lookupTr {α : Type} (tid : Int) : List (Int × α) → Option α
  | [] => none
  | (k, v) :: rest => if k = tid then some v else lookupTr tid rest

/-- Models `map.entry(tid)` followed by `Occupied(o) => o.remove()`:
    returns the removed value (if any) and the remaining map. -/
def extract {α : Type} (tid : Int) :
    List (Int × α) → Option α × List (Int × α)
  | [] => (none, [])
  | (k, v) :: rest =>
    if k = tid then (some v, rest)
    else
      let r := extract tid rest
      (r.1, (k, v) :: r.2)

/-- Models the rebuild pattern used for both tracker maps (source lines
    129–141 and 151–157): for each thread id in order, reuse the tracker
    removed from the old map when present, otherwise create a fresh one
    with `mk`. -/
def rebuildTrackers (mk : Int → UsageTracker) :
    List (Int × UsageTracker) → List Int → List (Int × UsageTracker)
  | _, [] => []
  | old, tid :: rest =>
    let r := extract tid old
    (tid, r.1.getD (mk tid)) :: rebuildTrackers mk r.2 rest

/-- Insertion into a list kept sorted by descending second component,
    modelling the effect of `sort_unstable_by` with the descending
    comparator (tie order in the source is unspecified; this picks one). -/
def insertDesc (x : Int × ℕ) : List (Int × ℕ) → List (Int × ℕ)
  | [] => [x]
  | y :: ys => if y.2 ≤ x.2 then x :: y :: ys else y :: insertDesc x ys

/-- Sort by descending second component. -/
def sortDescBySnd : List (Int × ℕ) → List (Int × ℕ)
  | [] => []
  | x :: xs => insertDesc x (sortDescBySnd xs)

/-- The worker's local state in `monitor_thread`. -/
structure MonitorState where
  current_pid : Option Int
  last_full_update : ℤ
  all_trackers : List (Int × UsageTracker)
  top_trackers : List (Int × UsageTracker)
  deriving DecidableEq

/-- The initial worker state: no target, empty maps, `last_full_update`
    taken at thread start (`t0`). -/
def initState (t0 : ℤ) : MonitorState :=
  { current_pid := none, last_full_update := t0,
    all_trackers := [], top_trackers := [] }

/-- Environment of one loop iteration: the `try_recv` outcome, the
    `get_thread_ids` outcome, and one timestamp / per-tid reading function
    for each phase that calls `Instant::now()` / `get_thread_cpu_time`. -/
structure TickEnv where
  retarget : Option (Option Int)
  threads : Option (List Int)
  refresh_now : ℤ
  refresh_read : Int → ℕ
  rank_now : ℤ
  rank_read : Int → ℕ
  top_now : ℤ
  top_read : Int → ℕ
  refresh_end_now : ℤ
  publish_now : ℤ
  publish_read : Int → ℕ

/-- Source lines 120–124: a received retarget message replaces
    `current_pid` and clears both tracker maps; no message leaves the state
    alone. -/
def retargetPhase (s : MonitorState) (r : Option (Option Int)) :
    MonitorState :=
  match r with
  | some pid =>
    { s with current_pid := pid, all_trackers := [], top_trackers := [] }
  | none => s

/-- Source lines 126–161: when a target is set and at least one second has
    elapsed since the last full update, and thread enumeration succeeds,
    rebuild `all_trackers` from the enumerated ids (reusing surviving
    trackers), rank every tracker by a one-off `try_calculate` sample, keep
    the top 5, rebuild `top_trackers` from those ids, and record the new
    full-update instant.  Enumeration failure (`threads = none`) skips the
    whole block. -/
def refreshPhase (s : MonitorState) (env : TickEnv) : MonitorState :=
  match s.current_pid with
  | none => s
  | some _ =>
    if (10 ^ 9 : ℤ) ≤ env.refresh_now - s.last_full_update then
      match env.threads with
      | some ts =>
        let newAll := rebuildTrackers
          (fun tid => UsageTracker.new tid (env.refresh_read tid) env.refresh_now)
          s.all_trackers ts
        let topThreads := newAll.map
          (fun p => (p.1, try_calculate p.2 (env.rank_read p.1) env.rank_now))
        let top5 := (sortDescBySnd topThreads).take 5
        let newTop := rebuildTrackers
          (fun tid => UsageTracker.new tid (env.top_read tid) env.top_now)
          s.top_trackers (top5.map Prod.fst)
        { s with all_trackers := newAll, top_trackers := newTop,
                 last_full_update := env.refresh_end_now }
      | none => s
    else s

/-- Source lines 163–169: when a target is set, fold `max` over a
    `try_calculate` sample of every tracker in `top_trackers` (starting
    from 0) and publish the result.  The map entries are NOT written back:
    `try_calculate` consumes a by-value copy of each `Copy` tracker, so the
    `values_mut` iteration leaves the stored trackers unchanged.  With no
    target, nothing is published. -/
def publishPhase (s : MonitorState) (env : TickEnv) :
    MonitorState × Option ℕ :=
  match s.current_pid with
  | none => (s, none)
  | some _ =>
    let maxUsage := s.top_trackers.foldl
      (fun m p => max m (try_calculate p.2 (env.publish_read p.1) env.publish_now))
      0
    (s, some maxUsage)

/-- One iteration of the `monitor_thread` loop body: retarget check, then
    the conditional full refresh, then the publish step.  Returns the new
    state and the value sent on the `util_max` channel (if any). -/
def step (s : MonitorState) (env : TickEnv) : MonitorState × Option ℕ :=
  publishPhase (refreshPhase (retargetPhase s env.retarget) env) env

/-- Iterated loop body over a list of tick environments. -/
def run (s : MonitorState) : List TickEnv → MonitorState
  | [] => s
  | e :: es => run (step s e).1 es

/-- Models `ProcessMonitor::update_util_max`, i.e.
    `self.util_max.try_iter().last()`: the unbounded channel's queued
    values (oldest first) are drained completely and only the newest is
    returned; `none` when the queue is empty. -/
def update_util_max (queue : List ℕ) : Option ℕ × List ℕ :=
  (queue.getLast?, [])

/-! ### Basic lemmas about the association-list operations -/

theorem extract_fst {α : Type} (tid : Int) (l : List (Int × α)) :
    (extract tid l).1 = lookupTr tid l := by
  induction l with
  | nil => rfl
  | cons hd tl ih =>
    obtain ⟨k, v⟩ := hd
    by_cases h : k = tid
    · simp [extract, lookupTr, h]
    · simp [extract, lookupTr, h, ih]

theorem lookupTr_extract_ne {α : Type} (tid tid' : Int) (h : tid' ≠ tid)
    (l : List (Int × α)) :
    lookupTr tid' (extract tid l).2 = lookupTr tid' l := by
  induction l with
  | nil => rfl
  | cons hd tl ih =>
    obtain ⟨k, v⟩ := hd
    by_cases hk : k = tid
    · have hkt : ¬ k = tid' := by omega
      have htt : ¬ tid = tid' := fun hh => h hh.symm
      simp [extract, lookupTr, hk, hkt, htt]
    · simp [extract, lookupTr, hk, ih]

theorem rebuild_map_fst (mk : Int → UsageTracker)
    (old : List (Int × UsageTracker)) (ts : List Int) :
    (rebuildTrackers mk old ts).map Prod.fst = ts := by
  induction ts generalizing old with
  | nil => rfl
  | cons t rest ih => simp [rebuildTrackers, ih]

theorem lookupTr_rebuild (mk : Int → UsageTracker)
    (old : List (Int × UsageTracker)) (ts : List Int) (tid : Int) :
    lookupTr tid (rebuildTrackers mk old ts) =
      if tid ∈ ts then some ((lookupTr tid old).getD (mk tid)) else none := by
  induction ts generalizing old with
  | nil => rfl
  | cons t rest ih =>
    by_cases h : t = tid
    · subst h
      simp [rebuildTrackers, lookupTr, extract_fst]
    · have hne : tid ≠ t := fun hh => h hh.symm
      have hext := lookupTr_extract_ne t tid hne old
      simp only [rebuildTrackers, lookupTr, if_neg h, ih, hext, List.mem_cons]
      rcases Decidable.em (tid ∈ rest) with hmem | hmem
      · simp [hmem]
      · simp [hmem, hne]

theorem lookupTr_eq_none_of_not_mem {α : Type} (tid : Int)
    (l : List (Int × α)) (h : tid ∉ l.map Prod.fst) : lookupTr tid l = none := by
  induction l with
  | nil => rfl
  | cons hd tl ih =>
    obtain ⟨k, v⟩ := hd
    simp only [List.map_cons, List.mem_cons] at h
    push_neg at h
    have hk : ¬ k = tid := fun hh => h.1 hh.symm
    simp [lookupTr, hk, ih h.2]

theorem mem_insertDesc (x y : Int × ℕ) (l : List (Int × ℕ))
    (h : y ∈ insertDesc x l) : y = x ∨ y ∈ l := by
  induction l with
  | nil => simpa [insertDesc] using h
  | cons hd tl ih =>
    by_cases hc : hd.2 ≤ x.2
    · rw [insertDesc, if_pos hc] at h
      simp only [List.mem_cons] at h ⊢
      tauto
    · rw [insertDesc, if_neg hc] at h
      simp only [List.mem_cons] at h ⊢
      rcases h with h | h
      · tauto
      · rcases ih h with h | h <;> tauto

theorem mem_sortDescBySnd (y : Int × ℕ) (l : List (Int × ℕ))
    (h : y ∈ sortDescBySnd l) : y ∈ l := by
  induction l with
  | nil => exact h
  | cons hd tl ih =>
    rcases mem_insertDesc hd y _ h with h | h
    · simp [h]
    · simp [ih h]

theorem publishPhase_fst (s : MonitorState) (env : TickEnv) :
    (publishPhase s env).1 = s := by
  cases h : s.current_pid <;> simp [publishPhase, h]

theorem refreshPhase_pid (s : MonitorState) (env : TickEnv) :
    (refreshPhase s env).current_pid = s.current_pid := by
  cases h : s.current_pid with
  | none => simp [refreshPhase, h]
  | some p =>
    simp only [refreshPhase, h]
    split
    · cases env.threads <;> simp [h]
    · exact h

theorem rebuild_length (mk : Int → UsageTracker)
    (old : List (Int × UsageTracker)) (ts : List Int) :
    (rebuildTrackers mk old ts).length = ts.length := by
  have h := congrArg List.length (rebuild_map_fst mk old ts)
  simpa using h

/-! ### Arithmetic facts about the sampling computation -/

theorem U64Mod_eq : U64Mod = 18446744073709551616 := by norm_num [U64Mod]

theorem wrapSub_of_le (a b : ℕ) (hba : b ≤ a) (ha : a < U64Mod) :
    wrapSub a b = a - b := by
  unfold wrapSub
  rw [U64Mod_eq] at ha ⊢
  omega

/-- Under a positive elapsed denominator and a monotone in-range counter,
    `try_calculate` is the saturated floor division of the counter delta by
    the elapsed nanoseconds. -/
theorem try_calculate_pos (tr : UsageTracker) (new : ℕ) (now : ℤ)
    (hpos : 0 < now - tr.read_timer) (hba : tr.last_cputime ≤ new)
    (hlt : new < U64Mod) :
    try_calculate tr new now =
      min (U64Mod - 1)
        ((new - tr.last_cputime) / (now - tr.read_timer).toNat) := by
  simp only [try_calculate, tryCalculateRaw, f64DivCast,
    wrapSub_of_le new tr.last_cputime hba hlt, if_neg (not_le.mpr hpos)]

/-- A thread whose counter advanced by less than the elapsed wall-clock
    nanoseconds (utilization strictly below one core) samples as `0`. -/
theorem try_calculate_zero_of_small (tr : UsageTracker) (new : ℕ) (now : ℤ)
    (hpos : 0 < now - tr.read_timer) (hba : tr.last_cputime ≤ new)
    (hlt : new < U64Mod)
    (hsmall : new - tr.last_cputime < (now - tr.read_timer).toNat) :
    try_calculate tr new now = 0 := by
  rw [try_calculate_pos tr new now hpos hba hlt, Nat.div_eq_of_lt hsmall]
  simp

theorem foldl_max_zero {α : Type} (f : α → ℕ) (l : List α)
    (h : ∀ p ∈ l, f p = 0) :
    l.foldl (fun m p => max m (f p)) 0 = 0 := by
  induction l with
  | nil => rfl
  | cons hd tl ih =>
    have h0 : f hd = 0 := h hd (by simp)
    simp only [List.foldl_cons, h0, Nat.max_self]
    exact ih (fun p hp => h p (by simp [hp]))

/-! ### The C5 invariant -/

/-- Invariant of the worker state: the hot population has at most five
    entries and its keys are keys of the tracked population. -/
def MonInv (s : MonitorState) : Prop :=
  s.top_trackers.length ≤ 5 ∧
  ∀ tid, tid ∈ s.top_trackers.map Prod.fst →
    tid ∈ s.all_trackers.map Prod.fst

theorem monInv_retarget (s : MonitorState) (r : Option (Option Int))
    (h : MonInv s) : MonInv (retargetPhase s r) := by
  cases r with
  | none => exact h
  | some pid =>
    refine ⟨by simp [retargetPhase], ?_⟩
    intro tid htid
    simp [retargetPhase] at htid

theorem monInv_refresh (s : MonitorState) (env : TickEnv)
    (h : MonInv s) : MonInv (refreshPhase s env) := by
  cases hp : s.current_pid with
  | none => simpa [refreshPhase, hp] using h
  | some p =>
    simp only [refreshPhase, hp]
    split
    · cases ht : env.threads with
      | none => exact h
      | some ts =>
        constructor
        · rw [rebuild_length]
          simp only [List.length_map]
          exact List.length_take_le 5 _
        · intro tid htid
          rw [rebuild_map_fst] at htid
          rcases List.mem_map.mp htid with ⟨pr, hpr, rfl⟩
          have hpr2 : pr ∈ sortDescBySnd _ := (List.take_sublist 5 _).subset hpr
          have hpr3 := mem_sortDescBySnd pr _ hpr2
          rcases List.mem_map.mp hpr3 with ⟨q, hq, hqe⟩
          exact List.mem_map.mpr ⟨q, hq, by rw [← hqe]⟩
    · exact h

theorem monInv_step (s : MonitorState) (env : TickEnv) (h : MonInv s) :
    MonInv (step s env).1 := by
  unfold step
  rw [publishPhase_fst]
  exact monInv_refresh _ _ (monInv_retarget _ _ h)

theorem monInv_run (s : MonitorState) (envs : List TickEnv) (h : MonInv s) :
    MonInv (run s envs) := by
  induction envs generalizing s with
  | nil => exact h
  | cons e es ih => exact ih _ (monInv_step s e h)

/-- Explicit form of the state after a tick whose full refresh fires:
    no retarget message, a target set, the one-second cadence reached and a
    successful thread enumeration. -/
theorem step_refresh_eq (s : MonitorState) (env : TickEnv) (p : Int)
    (ts : List Int)
    (hr : env.retarget = none) (hp : s.current_pid = some p)
    (hc : (10 ^ 9 : ℤ) ≤ env.refresh_now - s.last_full_update)
    (ht : env.threads = some ts) :
    (step s env).1 = { s with
      all_trackers := rebuildTrackers
        (fun tid => UsageTracker.new tid (env.refresh_read tid) env.refresh_now)
        s.all_trackers ts,
      top_trackers := rebuildTrackers
        (fun tid => UsageTracker.new tid (env.top_read tid) env.top_now)
        s.top_trackers
        (((sortDescBySnd ((rebuildTrackers
            (fun tid => UsageTracker.new tid (env.refresh_read tid) env.refresh_now)
            s.all_trackers ts).map
              (fun q => (q.1, try_calculate q.2 (env.rank_read q.1) env.rank_now)))).take
          5).map Prod.fst),
      last_full_update := env.refresh_end_now } := by
  unfold step
  rw [publishPhase_fst, hr]
  show refreshPhase s env = _
  simp only [refreshPhase, hp, if_pos hc, ht]

/-- A tick on which the full refresh does not fire — enumeration failed or
    less than one second has elapsed — leaves the state unchanged. -/
theorem refreshPhase_skip (s : MonitorState) (env : TickEnv)
    (h : env.threads = none ∨ env.refresh_now - s.last_full_update < 10 ^ 9) :
    refreshPhase s env = s := by
  cases hp : s.current_pid with
  | none => simp [refreshPhase, hp]
  | some p =>
    simp only [refreshPhase, hp]
    rcases h with hnone | hlt
    · split
      · rw [hnone]
      · rfl
    · rw [if_neg (by omega)]

/-! ### Concrete states and tick environments used as test inputs -/

/-- A tracker baselined at counter value 0, instant 0. -/
def c1Tracker : UsageTracker := { tid := 1, last_cputime := 0, read_timer := 0 }

/-- Worker state tracking pid 1 with thread 1 hot. -/
def c1State : MonitorState :=
  { current_pid := some 1, last_full_update := 0,
    all_trackers := [(1, c1Tracker)], top_trackers := [(1, c1Tracker)] }

/-- Tick at t = 1 s: no retarget, enumeration failed, thread 1's counter
    reads 2e9 ns at publish time. -/
def c1TickA : TickEnv :=
  { retarget := none, threads := none,
    refresh_now := 10 ^ 9, refresh_read := fun _ => 0,
    rank_now := 10 ^ 9, rank_read := fun _ => 0,
    top_now := 10 ^ 9, top_read := fun _ => 0,
    refresh_end_now := 10 ^ 9,
    publish_now := 10 ^ 9, publish_read := fun _ => 2 * 10 ^ 9 }

/-- Tick at t = 2 s: thread 1's counter still reads 2e9 ns (the thread was
    idle during the second interval). -/
def c1TickB : TickEnv :=
  { retarget := none, threads := none,
    refresh_now := 2 * 10 ^ 9, refresh_read := fun _ => 0,
    rank_now := 2 * 10 ^ 9, rank_read := fun _ => 0,
    top_now := 2 * 10 ^ 9, top_read := fun _ => 0,
    refresh_end_now := 2 * 10 ^ 9,
    publish_now := 2 * 10 ^ 9, publish_read := fun _ => 2 * 10 ^ 9 }

/-- Tick at t = 1 s whose publish-time counter reading is 1 ns. -/
def c4Env : TickEnv :=
  { retarget := none, threads := none,
    refresh_now := 10 ^ 9, refresh_read := fun _ => 0,
    rank_now := 10 ^ 9, rank_read := fun _ => 0,
    top_now := 10 ^ 9, top_read := fun _ => 0,
    refresh_end_now := 10 ^ 9,
    publish_now := 10 ^ 9, publish_read := fun _ => 1 }

/-- A tracker of the refresh test: thread 1 baselined at counter 42. -/
def c6Tracker : UsageTracker := { tid := 1, last_cputime := 42, read_timer := 5 }

/-- Worker state tracking pid 1 with thread 1 known and hot. -/
def c6State : MonitorState :=
  { current_pid := some 1, last_full_update := 0,
    all_trackers := [(1, c6Tracker)], top_trackers := [(1, c6Tracker)] }

/-- Tick at t = 2 s: enumeration finds threads 1 and 2. -/
def c6Env : TickEnv :=
  { retarget := none, threads := some [1, 2],
    refresh_now := 2 * 10 ^ 9, refresh_read := fun _ => 7,
    rank_now := 2 * 10 ^ 9, rank_read := fun _ => 7,
    top_now := 2 * 10 ^ 9, top_read := fun _ => 7,
    refresh_end_now := 2 * 10 ^ 9,
    publish_now := 2 * 10 ^ 9, publish_read := fun _ => 7 }

/-- Worker state tracking pid 1 with thread 9 known and hot. -/
def c7State : MonitorState :=
  { current_pid := some 1, last_full_update := 0,
    all_trackers := [(9, c6Tracker)], top_trackers := [(9, c6Tracker)] }

/-- Tick carrying a retarget message to pid 5, enumeration failed. -/
def c7Env : TickEnv :=
  { retarget := some (some 5), threads := none,
    refresh_now := 10 ^ 9, refresh_read := fun _ => 0,
    rank_now := 10 ^ 9, rank_read := fun _ => 0,
    top_now := 10 ^ 9, top_read := fun _ => 0,
    refresh_end_now := 10 ^ 9,
    publish_now := 10 ^ 9, publish_read := fun _ => 0 }

/-- Worker state tracking pid 1 with thread 9 hot (the prior target). -/
def c8State : MonitorState :=
  { current_pid := some 1, last_full_update := 0,
    all_trackers := [(9, { tid := 9, last_cputime := 100, read_timer := 0 })],
    top_trackers := [(9, { tid := 9, last_cputime := 100, read_timer := 0 })] }

/-- Tick at t = 2 s carrying a retarget to pid 2 whose full refresh fires
    in the same tick: the new target has one thread (7) whose counter
    advances by 3e9 ns in the 1e9 ns between the hot rebuild and the
    publish sample. -/
def c8Env : TickEnv :=
  { retarget := some (some 2), threads := some [7],
    refresh_now := 2 * 10 ^ 9, refresh_read := fun _ => 0,
    rank_now := 2 * 10 ^ 9, rank_read := fun _ => 0,
    top_now := 2 * 10 ^ 9, top_read := fun _ => 0,
    refresh_end_now := 2 * 10 ^ 9,
    publish_now := 3 * 10 ^ 9, publish_read := fun _ => 3 * 10 ^ 9 }

/-- Tick carrying a retarget to pid 4, enumeration failed. -/
def c8bEnv : TickEnv :=
  { retarget := some (some 4), threads := none,
    refresh_now := 10 ^ 9, refresh_read := fun _ => 0,
    rank_now := 10 ^ 9, rank_read := fun _ => 0,
    top_now := 10 ^ 9, top_read := fun _ => 0,
    refresh_end_now := 10 ^ 9,
    publish_now := 10 ^ 9, publish_read := fun _ => 0 }

/-! ### Claim C1 -/

/-- C1: the claim states that `sample()` (`try_calculate`) rebases the
    stored tracker, so a second sample reflects only the delta since the
    previous sample.  The code does not do this: `try_calculate` consumes a
    by-value copy of the `Copy` tracker, so the tracker stored in the map
    keeps its creation baseline — the assignments inside `try_calculate`
    are dead writes.  Concretely: a thread consumes 2e9 ns of CPU during
    the first second and nothing afterwards; the tick at t = 1 s publishes
    2 and leaves the stored tracker unchanged, and the tick at t = 2 s
    publishes 1 (the lifetime average 2e9 / 2e9), whereas a second sample
    taken on the rebased copy that the source discards yields 0. -/
theorem c1_tracker_never_rebased :
    (step c1State c1TickA).1 = c1State ∧
    (step c1State c1TickA).2 = some 2 ∧
    (step (step c1State c1TickA).1 c1TickB).2 = some 1 ∧
    try_calculate (tryCalculateRaw c1Tracker (2 * 10 ^ 9) (10 ^ 9)).1
      (2 * 10 ^ 9) (2 * 10 ^ 9) = 0 := by
  decide

/-! ### Claim C2 -/

/-- C2: for a vanished thread the CPU-time reader returns zero rather than
    failing — an unreadable record gives 0, and an unparseable first field
    gives 0 — and a subsequent sample on a tracker for that thread never
    aborts the computation: with release-profile `u64` wrapping semantics
    the subtraction of `last_cpu_time` from a fresh zero reading is total
    (it evaluates to the wrapped slice), and the monitor publishes a value
    on every tick on which a target is in effect. -/
theorem c2_vanished_thread_reads_zero :
    get_thread_cpu_time none = 0 ∧
    (∀ content : List Char,
      (content.takeWhile (fun c => c ≠ ' ')).takeWhile Char.isDigit = [] →
      get_thread_cpu_time (some content) = 0) ∧
    (∀ (tr : UsageTracker) (now : ℤ), tr.last_cputime < U64Mod →
      try_calculate tr 0 now =
        f64DivCast ((U64Mod - tr.last_cputime) % U64Mod)
          (now - tr.read_timer)) ∧
    (∀ (s : MonitorState) (env : TickEnv) (p : Int),
      (retargetPhase s env.retarget).current_pid = some p →
      ((step s env).2).isSome) := by
  refine ⟨rfl, ?_, ?_, ?_⟩
  · intro content h
    simp only [get_thread_cpu_time, atoiU64, Option.getD_some]
    rw [h]
    simp
  · intro tr now h
    simp only [try_calculate, tryCalculateRaw]
    congr 1
    unfold wrapSub
    rw [U64Mod_eq] at h ⊢
    omega
  · intro s env p h
    have hpid :
        (refreshPhase (retargetPhase s env.retarget) env).current_pid =
          some p := by
      rw [refreshPhase_pid]; exact h
    unfold step
    simp [publishPhase, hpid]

/-- Witness for C2 at concrete inputs. -/
theorem c2_witness :
    get_thread_cpu_time (some ['b', 'a', 'd']) = 0 ∧
    try_calculate { tid := 1, last_cputime := 5, read_timer := 0 } 0 1 =
      f64DivCast ((U64Mod - 5) % U64Mod) (1 - 0) ∧
    ((step c1State c1TickA).2).isSome := by
  refine ⟨?_, ?_, ?_⟩
  · exact c2_vanished_thread_reads_zero.2.1 ['b', 'a', 'd'] (by decide)
  · exact c2_vanished_thread_reads_zero.2.2.1
      { tid := 1, last_cputime := 5, read_timer := 0 } 1 (by decide)
  · exact c2_vanished_thread_reads_zero.2.2.2 c1State c1TickA 1 (by decide)

/-! ### Claim C3 -/

/-- C3 counterexample: at the concrete call with elapsed denominator 0 and
    counter delta 1 the source computes `1.0 / 0.0 = +inf` and the
    `as u64` cast saturates, so the returned rate is `u64::MAX`, not the
    zero the claim asserts for every non-positive elapsed denominator. -/
theorem c3_counterexample :
    try_calculate { tid := 1, last_cputime := 0, read_timer := 0 } 1 0 =
      U64Mod - 1 ∧ U64Mod - 1 ≠ 0 := by
  decide

/-- C3 amended: with a non-positive elapsed denominator the call never
    panics and never propagates a non-finite value downstream: it returns
    0 when the (wrapped) CPU-time delta is 0 (the `NaN as u64` case) and
    saturates to the finite `u64::MAX` when the delta is positive (the
    `+inf as u64` case). -/
theorem c3_nonpositive_elapsed_saturates (tr : UsageTracker) (new : ℕ)
    (now : ℤ) (h : now - tr.read_timer ≤ 0) :
    try_calculate tr new now =
      if wrapSub new tr.last_cputime = 0 then 0 else U64Mod - 1 := by
  simp only [try_calculate, tryCalculateRaw, f64DivCast, if_pos h]

/-- Witness for the amended C3 at a concrete input. -/
theorem c3_witness :
    ((0 : ℤ) - (0 : ℤ) ≤ 0) ∧
    try_calculate { tid := 1, last_cputime := 0, read_timer := 0 } 1 0 =
      if wrapSub 1 0 = 0 then 0 else U64Mod - 1 :=
  ⟨by decide,
   c3_nonpositive_elapsed_saturates
     { tid := 1, last_cputime := 0, read_timer := 0 } 1 0 (by decide)⟩

/-! ### Claim C4 -/

/-- C4: with a positive elapsed time the returned sample is the floor of
    (CPU-time delta in nanoseconds) / (elapsed wall-clock nanoseconds),
    converted to `u64` (saturating); hence a per-thread utilization
    strictly below one full core samples as 0, and the published maximum
    is 0 whenever every hot tracker is below one full core over the
    tick. -/
theorem c4_floor_division_semantics :
    (∀ (tr : UsageTracker) (new : ℕ) (now : ℤ),
      0 < now - tr.read_timer → tr.last_cputime ≤ new → new < U64Mod →
      try_calculate tr new now =
        min (U64Mod - 1)
          ((new - tr.last_cputime) / (now - tr.read_timer).toNat) ∧
      (new - tr.last_cputime < (now - tr.read_timer).toNat →
        try_calculate tr new now = 0)) ∧
    (∀ (s : MonitorState) (env : TickEnv) (p : Int),
      s.current_pid = some p →
      (∀ q ∈ s.top_trackers,
        0 < env.publish_now - q.2.read_timer ∧
        q.2.last_cputime ≤ env.publish_read q.1 ∧
        env.publish_read q.1 < U64Mod ∧
        env.publish_read q.1 - q.2.last_cputime <
          (env.publish_now - q.2.read_timer).toNat) →
      (publishPhase s env).2 = some 0) := by
  constructor
  · intro tr new now hpos hba hlt
    exact ⟨try_calculate_pos tr new now hpos hba hlt,
      fun hsmall => try_calculate_zero_of_small tr new now hpos hba hlt hsmall⟩
  · intro s env p hp hall
    have hz : ∀ q ∈ s.top_trackers,
        try_calculate q.2 (env.publish_read q.1) env.publish_now = 0 := by
      intro q hq
      obtain ⟨h1, h2, h3, h4⟩ := hall q hq
      exact try_calculate_zero_of_small _ _ _ h1 h2 h3 h4
    simp only [publishPhase, hp]
    rw [foldl_max_zero _ s.top_trackers hz]

/-- Witness for C4 at concrete inputs: a thread that consumed 1 ns of CPU
    over a 1-second tick samples as 0, and the published maximum over a
    hot population of such threads is 0. -/
theorem c4_witness :
    try_calculate c1Tracker 1 (10 ^ 9) =
      min (U64Mod - 1) ((1 - 0) / ((10 ^ 9 : ℤ) - 0).toNat) ∧
    (publishPhase c1State c4Env).2 = some 0 := by
  constructor
  · exact (c4_floor_division_semantics.1 c1Tracker 1 (10 ^ 9)
      (by decide) (by decide) (by decide)).1
  · exact c4_floor_division_semantics.2 c1State c4Env 1 (by decide) (by decide)

/-! ### Claim C5 -/

/-- C5: in every state the monitor loop can reach from its initial state,
    the hot population holds at most five entries and every hot thread id
    is a key of the tracked population. -/
theorem c5_hot_population_bounded (t0 : ℤ) (envs : List TickEnv) :
    (run (initState t0) envs).top_trackers.length ≤ 5 ∧
    (run (initState t0) envs).top_trackers.map Prod.fst ⊆
      (run (initState t0) envs).all_trackers.map Prod.fst := by
  have h : MonInv (run (initState t0) envs) := by
    apply monInv_run
    constructor
    · simp [initState]
    · intro tid htid
      simp [initState] at htid
  refine ⟨h.1, ?_⟩
  intro a ha
  exact h.2 a ha

/-- Witness for C5 on a concrete one-tick trace whose refresh makes
    thread 7 hot. -/
theorem c5_witness :
    (run (initState 0) [c8Env]).top_trackers.length ≤ 5 ∧
    (7 : Int) ∈ (run (initState 0) [c8Env]).all_trackers.map Prod.fst := by
  constructor
  · exact (c5_hot_population_bounded 0 [c8Env]).1
  · exact (c5_hot_population_bounded 0 [c8Env]).2 (by decide)

/-! ### Claim C6 -/

/-- C6: on a successful full refresh (no retarget, target set, one-second
    cadence reached, enumeration succeeded) the tracked population is
    rebuilt so that a thread id present both before and after keeps its
    existing tracker, a newly seen id gets a fresh tracker baselined at
    its current counter reading, and an id absent from the enumeration is
    afterwards in neither the tracked nor the hot population. -/
theorem c6_full_refresh_rebuild (s : MonitorState) (env : TickEnv)
    (p : Int) (ts : List Int)
    (hr : env.retarget = none) (hp : s.current_pid = some p)
    (hc : (10 ^ 9 : ℤ) ≤ env.refresh_now - s.last_full_update)
    (ht : env.threads = some ts) :
    (∀ tid tr, tid ∈ ts → lookupTr tid s.all_trackers = some tr →
      lookupTr tid (step s env).1.all_trackers = some tr) ∧
    (∀ tid, tid ∈ ts → lookupTr tid s.all_trackers = none →
      lookupTr tid (step s env).1.all_trackers =
        some (UsageTracker.new tid (env.refresh_read tid) env.refresh_now)) ∧
    (∀ tid, tid ∉ ts →
      lookupTr tid (step s env).1.all_trackers = none ∧
      lookupTr tid (step s env).1.top_trackers = none) := by
  rw [step_refresh_eq s env p ts hr hp hc ht]
  dsimp only
  refine ⟨?_, ?_, ?_⟩
  · intro tid tr htid hold
    rw [lookupTr_rebuild, if_pos htid, hold]
    rfl
  · intro tid htid hold
    rw [lookupTr_rebuild, if_pos htid, hold]
    rfl
  · intro tid htid
    constructor
    · rw [lookupTr_rebuild, if_neg htid]
    · apply lookupTr_eq_none_of_not_mem
      rw [rebuild_map_fst]
      intro hmem
      rcases List.mem_map.mp hmem with ⟨pr, hpr, rfl⟩
      have hpr2 := (List.take_sublist 5 _).subset hpr
      have hpr3 := mem_sortDescBySnd pr _ hpr2
      rcases List.mem_map.mp hpr3 with ⟨q, hq, hqe⟩
      apply htid
      have hql : q.1 ∈ (rebuildTrackers
          (fun tid => UsageTracker.new tid (env.refresh_read tid) env.refresh_now)
          s.all_trackers ts).map Prod.fst :=
        List.mem_map.mpr ⟨q, hq, rfl⟩
      rw [rebuild_map_fst] at hql
      rw [← hqe]
      exact hql

/-- Witness for C6 on a concrete refresh: thread 1 persists and keeps its
    tracker, thread 2 is new and gets a fresh current-value baseline, and
    thread 3 is absent from both populations. -/
theorem c6_witness :
    lookupTr 1 (step c6State c6Env).1.all_trackers = some c6Tracker ∧
    lookupTr 2 (step c6State c6Env).1.all_trackers =
      some (UsageTracker.new 2 (c6Env.refresh_read 2) c6Env.refresh_now) ∧
    lookupTr 3 (step c6State c6Env).1.all_trackers = none ∧
    lookupTr 3 (step c6State c6Env).1.top_trackers = none := by
  obtain ⟨h1, h2, h3⟩ := c6_full_refresh_rebuild c6State c6Env 1 [1, 2]
    (by decide) (by decide) (by decide) (by decide)
  exact ⟨h1 1 c6Tracker (by decide) (by decide),
    h2 2 (by decide) (by decide),
    (h3 3 (by decide)).1, (h3 3 (by decide)).2⟩

/-! ### Claim C7 -/

/-- C7: any received retarget message — a new pid, the same pid, or none —
    unconditionally replaces the target and clears both tracker maps, and
    the tick's refresh and publish phases then run on that cleared
    state. -/
theorem c7_retarget_clears (s : MonitorState) (env : TickEnv)
    (msg : Option Int) (h : env.retarget = some msg) :
    retargetPhase s env.retarget =
      { s with current_pid := msg, all_trackers := [],
               top_trackers := [] } ∧
    step s env = publishPhase (refreshPhase
      { s with current_pid := msg, all_trackers := [],
               top_trackers := [] } env) env := by
  constructor
  · rw [h]
    rfl
  · show publishPhase (refreshPhase (retargetPhase s env.retarget) env) env = _
    rw [h]
    rfl

/-- Witness for C7 at a concrete retargeting tick. -/
theorem c7_witness :
    retargetPhase c7State c7Env.retarget =
      { c7State with current_pid := some 5, all_trackers := [],
                     top_trackers := [] } ∧
    step c7State c7Env = publishPhase (refreshPhase
      { c7State with current_pid := some 5, all_trackers := [],
                     top_trackers := [] } c7Env) c7Env :=
  c7_retarget_clears c7State c7Env (some 5) (by decide)

/-! ### Claim C8 -/

/-- C8 counterexample: a tick that both applies a retarget and — the
    one-second cadence having been reached — performs a successful full
    refresh publishes, in that same tick, a value computed from the new
    target's freshly built hot population: here 3, not the zero the claim
    asserts for the first post-retarget published value.  (The prior
    target's trackers play no role: both maps were cleared first.) -/
theorem c8_counterexample :
    c8Env.retarget = some (some 2) ∧
    (step c8State c8Env).2 = some 3 ∧ (3 : ℕ) ≠ 0 := by
  decide

/-- C8 amended: after a retarget is observed both populations are cleared
    before the refresh and publish phases run, so no published value
    derives from the prior target's trackers; and when no full refresh
    occurs in the retargeting tick (enumeration failed or the cadence was
    not reached) the hot population is still empty at publish time, so the
    published value is 0 for a new target and absent for a cleared
    target.  When a full refresh does fire in the same tick, the first
    published value derives from the new target's fresh hot population and
    need not be zero. -/
theorem c8_first_publish_after_retarget (s : MonitorState) (env : TickEnv)
    (msg : Option Int) (h : env.retarget = some msg)
    (hnr : env.threads = none ∨
      env.refresh_now - s.last_full_update < 10 ^ 9) :
    (step s env).2 = match msg with
      | some _ => some (0 : ℕ)
      | none => none := by
  show (publishPhase (refreshPhase (retargetPhase s env.retarget) env) env).2 = _
  rw [h]
  have hskip : refreshPhase (retargetPhase s (some msg)) env =
      retargetPhase s (some msg) := by
    apply refreshPhase_skip
    rcases hnr with h1 | h2
    · exact Or.inl h1
    · right
      simpa [retargetPhase] using h2
  rw [hskip]
  cases msg with
  | none => simp [publishPhase, retargetPhase]
  | some p => simp [publishPhase, retargetPhase]

/-- Witness for the amended C8: a retargeting tick whose enumeration
    fails publishes exactly 0. -/
theorem c8_witness :
    c8bEnv.retarget = some (some 4) ∧
    (step c8State c8bEnv).2 = some 0 := by
  constructor
  · decide
  · exact c8_first_publish_after_retarget c8State c8bEnv (some 4)
      (by decide) (Or.inl (by decide))

/-! ### Claim C9 -/

/-- C9: when a target is set, no retarget message arrives and the thread
    enumeration fails, the tick skips only the full-refresh step: the
    whole worker state — both tracker populations, the target and the
    full-refresh timestamp — is retained untouched. -/
theorem c9_enumeration_failure_retains_state (s : MonitorState)
    (env : TickEnv) (p : Int)
    (_hp : s.current_pid = some p)
    (hr : env.retarget = none) (ht : env.threads = none) :
    (step s env).1 = s := by
  unfold step
  rw [publishPhase_fst, hr]
  show refreshPhase s env = s
  exact refreshPhase_skip s env (Or.inl ht)

/-- Witness for C9 at a concrete enumeration-failure tick. -/
theorem c9_witness : (step c1State c1TickA).1 = c1State :=
  c9_enumeration_failure_retains_state c1State c1TickA 1
    (by decide) (by decide) (by decide)

/-! ### Claim C10 -/

/-- C10: `update_util_max` drains every queued value on the observable
    channel completely, returns only the most recently queued one, and
    returns no value exactly when nothing has arrived since the previous
    poll (the queue is empty). -/
theorem c10_poll_drains_latest (q : List ℕ) :
    update_util_max q = (q.getLast?, []) ∧
    (∀ (v : ℕ) (qs : List ℕ), (update_util_max (qs ++ [v])).1 = some v) ∧
    ((update_util_max q).1 = none ↔ q = []) := by
  refine ⟨rfl, ?_, ?_⟩
  · intro v qs
    simp [update_util_max]
  · simp [update_util_max, List.getLast?_eq_none_iff]

end PM
